import Mathlib

/-!
Shallow embedding of two modules of the graphrag repository:

* `graphrag/prompt_tune/cli.py` — the `prompt_tune` entry point, which reads a
  configuration, calls the external prompt-generation engine once and writes the
  three generated prompts to files; and
* `graphrag/query/api.py` — the `global_search` and `local_search` entry points
  together with the private helper `__get_embedding_description_store`.

External collaborators (configuration loaders, indexer adapters, vector-store
factory, search engines) are modelled as oracle fields of environment
structures; every call to an oracle may fail, modelled with `Except`.
Observable effects (progress reporting, directory creation, file writes, which
external call was made with which arguments) are recorded in an event trace
returned alongside the result, in the order the Python code performs them.
Python dictionaries that the code inspects are modelled as association lists of
string keys and flat Python values.
-/

namespace Graphrag

/-- A flat Python value, covering the shapes the embedded code actually reads
from configuration dictionaries (strings, booleans, integers, `None`). -/
inductive PyVal where
  | str (s : String)
  | bool (b : Bool)
  | int (n : Int)
  | pyNone
  deriving DecidableEq, Repr

/-- Python truthiness of a flat value: empty string, `False`, `0` and `None`
are falsy, everything else is truthy. -/
def PyVal.isTruthy : PyVal → Bool
  | .str s => s != ""
  | .bool b => b
  | .int n => n != 0
  | .pyNone => false

/-- A Python `dict` with string keys, modelled as an insertion-ordered
association list with unique keys (maintained by `dictSet`). -/
abbrev Dict : Type := List (String × PyVal)

/-- `d.get(key, dflt)` on a Python dict. -/
def dictGet (d : Dict) (key : String) (dflt : PyVal) : PyVal :=
  match List.find? (fun p => p.1 == key) d with
  | some p => p.2
  | none => dflt

/-- `key in d` on a Python dict. -/
def dictHasKey (d : Dict) (key : String) : Bool :=
  List.any d (fun p => p.1 == key)

/-- `d[key] = v` (also `d.update` with a one-element dict): replaces the value
in place if the key is present, otherwise appends the new binding, matching
Python's insertion-order semantics. -/
def dictSet (d : Dict) (key : String) (v : PyVal) : Dict :=
  if dictHasKey d key then
    List.map (fun p => if p.1 == key then (key, v) else p) d
  else d ++ [(key, v)]

/-- Python truthiness of a dict: truthy iff non-empty. -/
def dictBool (d : Dict) : Bool :=
  !(List.isEmpty d)

/-- `s.encode(encoding="utf-8", errors="strict")`.  A Lean `String` is always
a sequence of Unicode scalar values (no lone surrogates), on which strict
UTF-8 encoding is total, so this is a total function to the byte sequence. -/
def utf8Encode (s : String) : List Nat :=
  List.map (fun b => b.toNat) s.toUTF8.toList

/-- `pathlib.Path(output)`: a filesystem path wrapping the string it was built
from. -/
structure PyPath where
  path : String
  deriving DecidableEq, Repr

/-- `bool(path)` for a `pathlib.Path`: the class defines neither a boolean
conversion nor a length, so every `Path` object is truthy in Python. -/
def PyPath.toBool (_ : PyPath) : Bool := true

/-- Whether an `Except` result is a normal return. -/
def exceptIsOk {E A : Type} : Except E A → Bool
  | .ok _ => true
  | .error _ => false

/-- The argument record of the single call `api.generate_indexing_prompts(...)`
in `prompt_tune`, in the order the call site passes them
(`cli.py`, lines 55-68).  `K` is the type of the loaded graphrag config. -/
structure GenArgs (K : Type) where
  config : K
  root : String
  chunk_size : Int
  limit : Int
  select : String
  domain : String
  language : Option String
  max_tokens : Int
  skip_entity_types : Bool
  min_examples_required : Int
  n_subset_max : Int
  k : Int
  deriving DecidableEq, Repr

/-- Builds the `GenArgs` record exactly as the call site in `cli.py` does. -/
def promptTuneArgs {K : Type} (gc : K) (root : String) (chunk_size limit : Int)
    (select domain : String) (language : Option String) (max_tokens : Int)
    (skip_entity_types : Bool) (min_examples_required n_subset_max k : Int) :
    GenArgs K :=
  ⟨gc, root, chunk_size, limit, select, domain, language, max_tokens,
    skip_entity_types, min_examples_required, n_subset_max, k⟩

/-- Observable events of a `prompt_tune` run, in program order: the call to
`read_config_parameters`, the awaited call to `generate_indexing_prompts`,
the progress message, the `mkdir` and the file writes. -/
inductive PTEvent (K : Type) where
  | readConfig (root : String) (config : String)
  | generate (args : GenArgs K)
  | reporterInfo (dir : String)
  | mkdir (dir : String) (parents : Bool) (exist_ok : Bool)
  | fileWrite (dir : String) (name : String) (content : List Nat)
  deriving DecidableEq, Repr

/-- True exactly on the events produced by an `await` expression: in `cli.py`
the only `await` is the call to `api.generate_indexing_prompts`; every other
statement of `prompt_tune` is synchronous. -/
def PTEvent.isAwait {K : Type} : PTEvent K → Bool
  | .generate _ => true
  | _ => false

/-- True exactly on file-write events. -/
def PTEvent.isFileWrite {K : Type} : PTEvent K → Bool
  | .fileWrite _ _ _ => true
  | _ => false

/-- Oracles for the external collaborators of `prompt_tune`.
`read_config_parameters` comes from `graphrag.prompt_tune.loader`.

Modelled from the spec: `api.generate_indexing_prompts` is repository code
outside the excerpt; per the spec it produces the three prompts
(entity extraction, description summarization, community report), so the
oracle returns a triple of prompt strings. -/
structure PromptTuneEnv (Err K : Type) where
  read_config_parameters : String → String → Except Err K
  generate_indexing_prompts : GenArgs K → Except Err (String × String × String)

/-- `ENTITY_EXTRACTION_FILENAME` from `cli.py`. -/
def ENTITY_EXTRACTION_FILENAME : String := "entity_extraction.txt"

/-- `ENTITY_SUMMARIZATION_FILENAME` from `cli.py`. -/
def ENTITY_SUMMARIZATION_FILENAME : String := "summarize_descriptions.txt"

/-- `COMMUNITY_SUMMARIZATION_FILENAME` from `cli.py`. -/
def COMMUNITY_SUMMARIZATION_FILENAME : String := "community_report.txt"

/-- Shallow embedding of `prompt_tune` (`cli.py`, lines 22-85).  Returns the
event trace of the run and its outcome; a `.error` outcome is the uncaught
Python exception propagating to the caller.  File writes are recorded as
events carrying the output directory string, the file name and the strict
UTF-8 encoding of the written prompt. -/
def prompt_tune {Err K : Type} (env : PromptTuneEnv Err K)
    (config root domain select : String) (limit max_tokens chunk_size : Int)
    (language : Option String) (skip_entity_types : Bool) (output : String)
    (n_subset_max k min_examples_required : Int) :
    List (PTEvent K) × Except Err Unit :=
  match env.read_config_parameters root config with
  | .error e => ([PTEvent.readConfig root config], .error e)
  | .ok graph_config =>
    let args := promptTuneArgs graph_config root chunk_size limit select domain
      language max_tokens skip_entity_types min_examples_required n_subset_max k
    match env.generate_indexing_prompts args with
    | .error e =>
        ([PTEvent.readConfig root config, PTEvent.generate args], .error e)
    | .ok prompts =>
      let output_path : PyPath := ⟨output⟩
      if output_path.toBool then
        ([PTEvent.readConfig root config, PTEvent.generate args,
          PTEvent.reporterInfo output_path.path,
          PTEvent.mkdir output_path.path true true,
          PTEvent.fileWrite output_path.path ENTITY_EXTRACTION_FILENAME
            (utf8Encode prompts.1),
          PTEvent.fileWrite output_path.path ENTITY_SUMMARIZATION_FILENAME
            (utf8Encode prompts.2.1),
          PTEvent.fileWrite output_path.path COMMUNITY_SUMMARIZATION_FILENAME
            (utf8Encode prompts.2.2)], .ok ())
      else
        ([PTEvent.readConfig root config, PTEvent.generate args], .ok ())

/-- The response of a search engine, typed as the declared return annotation of
`global_search` and `local_search` in `api.py`:
`str | dict[str, Any] | list[dict[str, Any]]`. -/
inductive Response where
  | str (s : String)
  | record (d : Dict)
  | records (ds : List Dict)
  deriving DecidableEq, Repr

/-- The result object returned by a search engine's `search` call: the code
reads only its `response` field; `context` stands for the remaining fields. -/
structure SearchResult (Ctx : Type) where
  response : Response
  context : Ctx
  deriving DecidableEq, Repr

/-- A vector store as seen by `__get_embedding_description_store`: either the
store produced by `VectorStoreFactory.get_vector_store` (of abstract type
`FStore`), or a `LanceDBVectorStore` opened on a collection name and a
`db_uri`. -/
inductive Store (FStore : Type) where
  | fromFactory (s : FStore)
  | lancedb (collection_name : PyVal) (db_uri : PyVal)
  deriving DecidableEq, Repr

/-- The part of `GraphRagConfig` the excerpt inspects:
`config.embeddings.vector_store` is a dict or `None`; `rest` stands for all
other configuration fields, which are passed through unexamined. -/
structure GraphRagConfig (C : Type) where
  vector_store : Option Dict
  rest : C
  deriving DecidableEq, Repr

/-- The `{"claims": covariates}` mapping passed to the local search engine. -/
structure CovariateMap (Cov : Type) where
  claims : List Cov
  deriving DecidableEq, Repr

/-- `VectorStoreType.LanceDB` from `graphrag.vector_stores.typing`: the member
of the vector-store type enumeration whose value is the string `"lancedb"`,
used as the default store type.  No claim depends on the literal value. -/
def VectorStoreType_LanceDB : PyVal := PyVal.str "lancedb"

/-- Observable events of a `global_search` or `local_search` run, in program
order; each external call is recorded with the arguments the call site
passes.  `DF` is the abstract type of pandas DataFrames. -/
inductive QEvent (DF : Type) where
  | reporterInfo
  | readReports (reports_df : DF) (nodes_df : DF) (level : Int)
  | readEntities (nodes_df : DF) (entities_df : DF) (level : Int)
  | readTextUnits (df : DF)
  | readRelationships (df : DF)
  | readCovariates (df : DF)
  | factoryGetStore (vector_store_type : PyVal) (args : Dict)
  | factoryStoreConnect (args : Dict)
  | storeSemanticEmbeddings
  | lancedbConnect (db_uri : PyVal)
  | lancedbOpenTable (collection_name : PyVal)
  | getGlobalEngine
  | getLocalEngine
  | engineSearch (query : String)
  | reporterSuccess
  deriving DecidableEq, Repr

/-- True on events produced by an `await` expression: `api.py` defines only
plain synchronous functions, so no query event is an await. -/
def QEvent.isAwait {DF : Type} : QEvent DF → Bool
  | _ => false

/-- Oracles for the external collaborators of `graphrag/query/api.py`:
the indexer adapters, the search-engine factories, the engines' `search`
method, the vector-store factory and the LanceDB store operations. -/
structure QueryEnv (Err C DF Entity Reports TextUnits Relationships Covariate
    Engine FStore Ctx : Type) where
  read_indexer_reports : DF → DF → Int → Except Err Reports
  read_indexer_entities : DF → DF → Int → Except Err (List Entity)
  read_indexer_text_units : DF → Except Err TextUnits
  read_indexer_relationships : DF → Except Err Relationships
  read_indexer_covariates : DF → Except Err (List Covariate)
  get_global_search_engine :
    GraphRagConfig C → Reports → List Entity → String → Except Err Engine
  get_local_search_engine :
    GraphRagConfig C → Reports → TextUnits → List Entity → Relationships →
      CovariateMap Covariate → Store FStore → String → Except Err Engine
  engine_search : Engine → String → Except Err (SearchResult Ctx)
  factory_get_vector_store : PyVal → Dict → Except Err FStore
  factory_store_connect : FStore → Dict → Except Err Unit
  store_entity_semantic_embeddings : List Entity → FStore → Except Err Unit
  lancedb_connect : PyVal → Except Err Unit
  lancedb_open_table : PyVal → PyVal → Except Err Unit

/-- The rebinding `if not config_args: config_args = {}` at the top of
`__get_embedding_description_store`: a missing or falsy (empty) dict is
replaced by a fresh empty dict. -/
def normalizeConfigArgs (config_args0 : Option Dict) : Dict :=
  match config_args0 with
  | none => []
  | some d => if dictBool d then d else []

/-- The collection name `__get_embedding_description_store` reads from its
(normalized) `config_args`. -/
def edsCollectionName (config_args0 : Option Dict) : PyVal :=
  dictGet (normalizeConfigArgs config_args0) "query_collection_name"
    (PyVal.str "entity_description_embeddings")

/-- The `config_args` dict after the in-place
`config_args.update({"collection_name": collection_name})`. -/
def edsFinalArgs (config_args0 : Option Dict) : Dict :=
  dictSet (normalizeConfigArgs config_args0) "collection_name"
    (edsCollectionName config_args0)

/-- The `db_uri` the non-overwrite branch passes to the LanceDB connect call,
defaulting to `"./lancedb"`. -/
def edsDbUri (config_args0 : Option Dict) : PyVal :=
  dictGet (edsFinalArgs config_args0) "db_uri" (PyVal.str "./lancedb")

/-- The dict `local_search` binds to `vector_store_args`:
`config.embeddings.vector_store if config.embeddings.vector_store else {}`
(a falsy — missing or empty — value is replaced by a fresh empty dict). -/
def localVectorStoreArgs {C : Type} (config : GraphRagConfig C) : Dict :=
  match config.vector_store with
  | some d => if dictBool d then d else []
  | none => []

/-- Whether the `vector_store_args` binding aliases the config's own dict, so
that the in-place `config_args.update` inside
`__get_embedding_description_store` is visible through the config: exactly
when `config.embeddings.vector_store` is a truthy (non-empty) dict. -/
def localAliased {C : Type} (config : GraphRagConfig C) : Bool :=
  match config.vector_store with
  | some d => dictBool d
  | none => false

section QueryApi

variable {Err C DF Entity Reports TextUnits Relationships Covariate Engine
  FStore Ctx : Type}

/-- Shallow embedding of `__get_embedding_description_store` (`api.py`,
lines 37-81).  Returns the event trace, the final state of the local
`config_args` dict (which, when the caller passed a non-empty dict, is that
same mutated dict) and the resulting store or propagated exception. -/
def get_embedding_description_store
    (env : QueryEnv Err C DF Entity Reports TextUnits Relationships Covariate
      Engine FStore Ctx)
    (entities : List Entity) (vector_store_type : PyVal)
    (config_args0 : Option Dict) :
    List (QEvent DF) × Dict × Except Err (Store FStore) :=
  let collection_name := edsCollectionName config_args0
  let config_args := edsFinalArgs config_args0
  let t0 : List (QEvent DF) :=
    [QEvent.factoryGetStore vector_store_type config_args]
  match env.factory_get_vector_store vector_store_type config_args with
  | .error e => (t0, config_args, .error e)
  | .ok fstore =>
    let t1 := t0 ++ [QEvent.factoryStoreConnect config_args]
    match env.factory_store_connect fstore config_args with
    | .error e => (t1, config_args, .error e)
    | .ok _ =>
      if (dictGet config_args "overwrite" (PyVal.bool false)).isTruthy then
        let t2 := t1 ++ [QEvent.storeSemanticEmbeddings]
        match env.store_entity_semantic_embeddings entities fstore with
        | .error e => (t2, config_args, .error e)
        | .ok _ => (t2, config_args, .ok (Store.fromFactory fstore))
      else
        let db_uri := edsDbUri config_args0
        let t2 := t1 ++ [QEvent.lancedbConnect db_uri]
        match env.lancedb_connect db_uri with
        | .error e => (t2, config_args, .error e)
        | .ok _ =>
          let t3 := t2 ++ [QEvent.lancedbOpenTable collection_name]
          match env.lancedb_open_table db_uri collection_name with
          | .error e => (t3, config_args, .error e)
          | .ok _ =>
              (t3, config_args, .ok (Store.lancedb collection_name db_uri))

/-- Shallow embedding of `global_search` (`api.py`, lines 84-125).  Returns
the event trace and either the engine's `response` or the propagated
exception. -/
def global_search
    (env : QueryEnv Err C DF Entity Reports TextUnits Relationships Covariate
      Engine FStore Ctx)
    (config : GraphRagConfig C)
    (final_nodes final_entities final_community_reports : DF)
    (community_level : Int) (response_type query : String) :
    List (QEvent DF) × Except Err Response :=
  let t0 : List (QEvent DF) :=
    [QEvent.readReports final_community_reports final_nodes community_level]
  match env.read_indexer_reports final_community_reports final_nodes
      community_level with
  | .error e => (t0, .error e)
  | .ok reports =>
    let t1 := t0 ++
      [QEvent.readEntities final_nodes final_entities community_level]
    match env.read_indexer_entities final_nodes final_entities
        community_level with
    | .error e => (t1, .error e)
    | .ok entities =>
      let t2 := t1 ++ [QEvent.getGlobalEngine]
      match env.get_global_search_engine config reports entities
          response_type with
      | .error e => (t2, .error e)
      | .ok search_engine =>
        let t3 := t2 ++ [QEvent.engineSearch query]
        match env.engine_search search_engine query with
        | .error e => (t3, .error e)
        | .ok result => (t3 ++ [QEvent.reporterSuccess], .ok result.response)

/-- Shallow embedding of `local_search` (`api.py`, lines 128-197).  Returns
the event trace, the final state of the config (whose
`embeddings.vector_store` dict is mutated in place by
`__get_embedding_description_store` when it is a non-empty dict) and either
the engine's `response` or the propagated exception. -/
def local_search
    (env : QueryEnv Err C DF Entity Reports TextUnits Relationships Covariate
      Engine FStore Ctx)
    (config : GraphRagConfig C)
    (final_nodes final_entities final_community_reports final_text_units
      final_relationships : DF)
    (final_covariates : Option DF) (community_level : Int)
    (response_type query : String) :
    List (QEvent DF) × GraphRagConfig C × Except Err Response :=
  let vector_store_args : Dict := localVectorStoreArgs config
  let aliased : Bool := localAliased config
  let t0 : List (QEvent DF) := [QEvent.reporterInfo]
  let vector_store_type := dictGet vector_store_args "type"
    VectorStoreType_LanceDB
  let t1 := t0 ++
    [QEvent.readEntities final_nodes final_entities community_level]
  match env.read_indexer_entities final_nodes final_entities
      community_level with
  | .error e => (t1, config, .error e)
  | .ok entities =>
    let sres := get_embedding_description_store env entities vector_store_type
      (some vector_store_args)
    let t2 := t1 ++ sres.1
    let config' : GraphRagConfig C :=
      if aliased then ⟨some sres.2.1, config.rest⟩ else config
    let tail : List (QEvent DF) × Except Err Response :=
      match sres.2.2 with
      | .error e => (t2, .error e)
      | .ok description_embedding_store =>
        let covStep : List (QEvent DF) × Except Err (List Covariate) :=
          match final_covariates with
          | some df => ([QEvent.readCovariates df], env.read_indexer_covariates df)
          | none => ([], .ok [])
        let t3 := t2 ++ covStep.1
        match covStep.2 with
        | .error e => (t3, .error e)
        | .ok covariates =>
          let t4 := t3 ++
            [QEvent.readReports final_community_reports final_nodes
              community_level]
          match env.read_indexer_reports final_community_reports final_nodes
              community_level with
          | .error e => (t4, .error e)
          | .ok reports =>
            let t5 := t4 ++ [QEvent.readTextUnits final_text_units]
            match env.read_indexer_text_units final_text_units with
            | .error e => (t5, .error e)
            | .ok text_units =>
              let t6 := t5 ++
                [QEvent.readRelationships final_relationships]
              match env.read_indexer_relationships final_relationships with
              | .error e => (t6, .error e)
              | .ok relationships =>
                let t7 := t6 ++ [QEvent.getLocalEngine]
                match env.get_local_search_engine config' reports text_units
                    entities relationships ⟨covariates⟩
                    description_embedding_store response_type with
                | .error e => (t7, .error e)
                | .ok search_engine =>
                  let t8 := t7 ++ [QEvent.engineSearch query]
                  match env.engine_search search_engine query with
                  | .error e => (t8, .error e)
                  | .ok result =>
                      (t8 ++ [QEvent.reporterSuccess], .ok result.response)
    (tail.1, config', tail.2)

end QueryApi

/-- True on the event recording a call to `read_indexer_covariates`. -/
def QEvent.isReadCovariates {DF : Type} : QEvent DF → Bool
  | .readCovariates _ => true
  | _ => false

/-- A concrete prompt-tune environment whose oracles all succeed: the config
loader returns the unit config and the generation engine returns the three
prompts `"A"`, `"B"`, `"C"`. -/
def envOkPT : PromptTuneEnv Nat Unit :=
  ⟨fun _ _ => .ok (), fun _ => .ok ("A", "B", "C")⟩

/-- A concrete prompt-tune environment whose generation engine raises the
exception `7`. -/
def envBadGen : PromptTuneEnv Nat Unit :=
  ⟨fun _ _ => .ok (), fun _ => .error 7⟩

/-- A concrete query environment whose oracles all succeed; the search engine
answers with the string response `"ok"`. -/
def envOkQ : QueryEnv Nat Unit Nat Unit Unit Unit Unit Nat Unit Unit Unit :=
  ⟨fun _ _ _ => .ok (), fun _ _ _ => .ok [], fun _ => .ok (), fun _ => .ok (),
   fun _ => .ok [1, 2], fun _ _ _ _ => .ok (), fun _ _ _ _ _ _ _ _ => .ok (),
   fun _ _ => .ok ⟨Response.str "ok", ()⟩, fun _ _ => .ok (), fun _ _ => .ok (),
   fun _ _ => .ok (), fun _ => .ok (), fun _ _ => .ok ()⟩

/-- A concrete query environment identical to `envOkQ` except that the search
engine raises the exception `42`. -/
def envBadSearchQ : QueryEnv Nat Unit Nat Unit Unit Unit Unit Nat Unit Unit Unit :=
  ⟨fun _ _ _ => .ok (), fun _ _ _ => .ok [], fun _ => .ok (), fun _ => .ok (),
   fun _ => .ok [1, 2], fun _ _ _ _ => .ok (), fun _ _ _ _ _ _ _ _ => .ok (),
   fun _ _ => .error 42, fun _ _ => .ok (), fun _ _ => .ok (),
   fun _ _ => .ok (), fun _ => .ok (), fun _ _ => .ok ()⟩

/-- A concrete configuration whose `embeddings.vector_store` is the non-empty
dict `{"type": "lancedb"}` (no `collection_name` key). -/
def cfg0 : GraphRagConfig Unit :=
  ⟨some [("type", PyVal.str "lancedb")], ()⟩

/-- Auxiliary: the dict component returned by
`get_embedding_description_store` is the updated `config_args`, on every
control path (including the error paths). -/
theorem eds_store_args_eq {Err C DF Entity Reports TextUnits Relationships
    Covariate Engine FStore Ctx : Type}
    (env : QueryEnv Err C DF Entity Reports TextUnits Relationships Covariate
      Engine FStore Ctx)
    (entities : List Entity) (vector_store_type : PyVal)
    (config_args0 : Option Dict) :
    (get_embedding_description_store env entities vector_store_type
      config_args0).2.1 = edsFinalArgs config_args0 := by
  unfold get_embedding_description_store
  dsimp only
  split
  · rfl
  · split
    · rfl
    · split
      · split <;> rfl
      · split
        · rfl
        · split <;> rfl

/-- C1: on every successful run of `prompt_tune` (config read and prompt
generation both return normally), the run succeeds and the file writes it
performs are exactly three, named `entity_extraction.txt`,
`summarize_descriptions.txt` and `community_report.txt`, in the output
directory, containing the strict UTF-8 encodings of the first, second and
third generated prompt respectively. -/
theorem prompt_tune_writes_three_files {Err K : Type}
    (env : PromptTuneEnv Err K)
    (config root domain select : String) (limit max_tokens chunk_size : Int)
    (language : Option String) (skip_entity_types : Bool) (output : String)
    (n_subset_max k min_examples_required : Int)
    (gc : K) (p1 p2 p3 : String)
    (hc : env.read_config_parameters root config = .ok gc)
    (hg : env.generate_indexing_prompts
      (promptTuneArgs gc root chunk_size limit select domain language
        max_tokens skip_entity_types min_examples_required n_subset_max k) =
      .ok (p1, p2, p3)) :
    (prompt_tune env config root domain select limit max_tokens chunk_size
      language skip_entity_types output n_subset_max k
      min_examples_required).2 = .ok () ∧
    List.filter (fun ev => PTEvent.isFileWrite ev)
      (prompt_tune env config root domain select limit max_tokens chunk_size
        language skip_entity_types output n_subset_max k
        min_examples_required).1 =
      [PTEvent.fileWrite output ENTITY_EXTRACTION_FILENAME (utf8Encode p1),
       PTEvent.fileWrite output ENTITY_SUMMARIZATION_FILENAME (utf8Encode p2),
       PTEvent.fileWrite output COMMUNITY_SUMMARIZATION_FILENAME
         (utf8Encode p3)] := by
  simp [prompt_tune, hc, hg, PyPath.toBool, PTEvent.isFileWrite, List.filter]

/-- Witness for C1 at a concrete environment and arguments. -/
theorem prompt_tune_writes_three_files_witness :
    (prompt_tune envOkPT "c" "r" "d" "random" 15 100 200 none false "prompts"
      300 15 2).2 = .ok () ∧
    List.filter (fun ev => PTEvent.isFileWrite ev)
      (prompt_tune envOkPT "c" "r" "d" "random" 15 100 200 none false
        "prompts" 300 15 2).1 =
      [PTEvent.fileWrite "prompts" ENTITY_EXTRACTION_FILENAME (utf8Encode "A"),
       PTEvent.fileWrite "prompts" ENTITY_SUMMARIZATION_FILENAME
         (utf8Encode "B"),
       PTEvent.fileWrite "prompts" COMMUNITY_SUMMARIZATION_FILENAME
         (utf8Encode "C")] :=
  prompt_tune_writes_three_files envOkPT "c" "r" "d" "random" 15 100 200 none
    false "prompts" 300 15 2 () "A" "B" "C" rfl rfl

/-- C5: `prompt_tune` is a single-pass sequence: if the config read raises,
nothing else happens; if the generation call raises, the trace holds exactly
the config read and the one generation call — no directory is created and no
file is written — and the exception propagates; on success the full ordered
trace shows config read, one generation call, then the writes. -/
theorem prompt_tune_single_pass {Err K : Type} (env : PromptTuneEnv Err K)
    (config root domain select : String) (limit max_tokens chunk_size : Int)
    (language : Option String) (skip_entity_types : Bool) (output : String)
    (n_subset_max k min_examples_required : Int) :
    (∀ e, env.read_config_parameters root config = .error e →
      prompt_tune env config root domain select limit max_tokens chunk_size
        language skip_entity_types output n_subset_max k
        min_examples_required =
      ([PTEvent.readConfig root config], .error e)) ∧
    (∀ gc e, env.read_config_parameters root config = .ok gc →
      env.generate_indexing_prompts
        (promptTuneArgs gc root chunk_size limit select domain language
          max_tokens skip_entity_types min_examples_required n_subset_max k) =
        .error e →
      prompt_tune env config root domain select limit max_tokens chunk_size
        language skip_entity_types output n_subset_max k
        min_examples_required =
      ([PTEvent.readConfig root config,
        PTEvent.generate (promptTuneArgs gc root chunk_size limit select
          domain language max_tokens skip_entity_types min_examples_required
          n_subset_max k)], .error e)) ∧
    (∀ gc p1 p2 p3, env.read_config_parameters root config = .ok gc →
      env.generate_indexing_prompts
        (promptTuneArgs gc root chunk_size limit select domain language
          max_tokens skip_entity_types min_examples_required n_subset_max k) =
        .ok (p1, p2, p3) →
      prompt_tune env config root domain select limit max_tokens chunk_size
        language skip_entity_types output n_subset_max k
        min_examples_required =
      ([PTEvent.readConfig root config,
        PTEvent.generate (promptTuneArgs gc root chunk_size limit select
          domain language max_tokens skip_entity_types min_examples_required
          n_subset_max k),
        PTEvent.reporterInfo output,
        PTEvent.mkdir output true true,
        PTEvent.fileWrite output ENTITY_EXTRACTION_FILENAME (utf8Encode p1),
        PTEvent.fileWrite output ENTITY_SUMMARIZATION_FILENAME (utf8Encode p2),
        PTEvent.fileWrite output COMMUNITY_SUMMARIZATION_FILENAME
          (utf8Encode p3)], .ok ())) := by
  refine ⟨?_, ?_, ?_⟩
  · intro e hc
    simp [prompt_tune, hc]
  · intro gc e hc hg
    simp [prompt_tune, hc, hg]
  · intro gc p1 p2 p3 hc hg
    simp [prompt_tune, hc, hg, PyPath.toBool]

/-- Witness for C5: with a generation engine that raises `7`, the run performs
no write and propagates the exception. -/
theorem prompt_tune_single_pass_witness :
    prompt_tune envBadGen "c" "r" "d" "random" 15 100 200 none false "prompts"
      300 15 2 =
    ([PTEvent.readConfig "r" "c",
      PTEvent.generate (promptTuneArgs () "r" 200 15 "random" "d" none 100
        false 2 300 15)], .error 7) :=
  (prompt_tune_single_pass envBadGen "c" "r" "d" "random" 15 100 200 none
    false "prompts" 300 15 2).2.1 () 7 rfl rfl

/-- C10: for every output string (the empty string included), the guard
`if output_path:` is true because a `pathlib.Path` is always truthy, and on a
successful run the full trace shows the directory creation with
`parents=True, exist_ok=True` followed by the three file writes: the
file-writing branch is never skipped. -/
theorem prompt_tune_output_guard_always_writes {Err K : Type}
    (env : PromptTuneEnv Err K)
    (config root domain select : String) (limit max_tokens chunk_size : Int)
    (language : Option String) (skip_entity_types : Bool) (output : String)
    (n_subset_max k min_examples_required : Int)
    (gc : K) (p1 p2 p3 : String)
    (hc : env.read_config_parameters root config = .ok gc)
    (hg : env.generate_indexing_prompts
      (promptTuneArgs gc root chunk_size limit select domain language
        max_tokens skip_entity_types min_examples_required n_subset_max k) =
      .ok (p1, p2, p3)) :
    PyPath.toBool ⟨output⟩ = true ∧
    (prompt_tune env config root domain select limit max_tokens chunk_size
      language skip_entity_types output n_subset_max k
      min_examples_required).1 =
    [PTEvent.readConfig root config,
     PTEvent.generate (promptTuneArgs gc root chunk_size limit select domain
       language max_tokens skip_entity_types min_examples_required
       n_subset_max k),
     PTEvent.reporterInfo output,
     PTEvent.mkdir output true true,
     PTEvent.fileWrite output ENTITY_EXTRACTION_FILENAME (utf8Encode p1),
     PTEvent.fileWrite output ENTITY_SUMMARIZATION_FILENAME (utf8Encode p2),
     PTEvent.fileWrite output COMMUNITY_SUMMARIZATION_FILENAME
       (utf8Encode p3)] := by
  refine ⟨rfl, ?_⟩
  simp [prompt_tune, hc, hg, PyPath.toBool]

/-- Witness for C10 at the empty output string. -/
theorem prompt_tune_output_guard_always_writes_witness :
    PyPath.toBool ⟨""⟩ = true ∧
    (prompt_tune envOkPT "c" "r" "d" "random" 15 100 200 none false "" 300 15
      2).1 =
    [PTEvent.readConfig "r" "c",
     PTEvent.generate (promptTuneArgs () "r" 200 15 "random" "d" none 100
       false 2 300 15),
     PTEvent.reporterInfo "",
     PTEvent.mkdir "" true true,
     PTEvent.fileWrite "" ENTITY_EXTRACTION_FILENAME (utf8Encode "A"),
     PTEvent.fileWrite "" ENTITY_SUMMARIZATION_FILENAME (utf8Encode "B"),
     PTEvent.fileWrite "" COMMUNITY_SUMMARIZATION_FILENAME (utf8Encode "C")] :=
  prompt_tune_output_guard_always_writes envOkPT "c" "r" "d" "random" 15 100
    200 none false "" 300 15 2 () "A" "B" "C" rfl rfl

/-- C8: the glue is synchronous and single-threaded: in every run of
`prompt_tune` the number of await suspension points in the trace is `1` when
the (synchronous) config read returns normally and `0` otherwise — the only
await is the delegated `generate_indexing_prompts` call — and runs of
`global_search` and `local_search` contain no suspension point at all. -/
theorem glue_single_await {Err K C DF Entity Reports TextUnits Relationships
    Covariate Engine FStore Ctx : Type}
    (envPT : PromptTuneEnv Err K)
    (env : QueryEnv Err C DF Entity Reports TextUnits Relationships Covariate
      Engine FStore Ctx)
    (config root domain select : String) (limit max_tokens chunk_size : Int)
    (language : Option String) (skip_entity_types : Bool) (output : String)
    (n_subset_max k min_examples_required : Int)
    (qconfig : GraphRagConfig C)
    (final_nodes final_entities final_community_reports final_text_units
      final_relationships : DF)
    (final_covariates : Option DF) (community_level : Int)
    (response_type query : String) :
    List.countP (fun ev => PTEvent.isAwait ev)
      (prompt_tune envPT config root domain select limit max_tokens chunk_size
        language skip_entity_types output n_subset_max k
        min_examples_required).1 =
      (if exceptIsOk (envPT.read_config_parameters root config) then 1
       else 0) ∧
    List.countP (fun ev => QEvent.isAwait ev)
      (global_search env qconfig final_nodes final_entities
        final_community_reports community_level response_type query).1 = 0 ∧
    List.countP (fun ev => QEvent.isAwait ev)
      (local_search env qconfig final_nodes final_entities
        final_community_reports final_text_units final_relationships
        final_covariates community_level response_type query).1 = 0 := by
  refine ⟨?_, ?_, ?_⟩
  · rcases hc : envPT.read_config_parameters root config with e | gc
    · simp [prompt_tune, hc, exceptIsOk, PTEvent.isAwait]
    · rcases hg : envPT.generate_indexing_prompts (promptTuneArgs gc root
        chunk_size limit select domain language max_tokens skip_entity_types
        min_examples_required n_subset_max k) with e | p
      · simp [prompt_tune, hc, hg, exceptIsOk, PTEvent.isAwait,
          List.countP_cons]
      · simp [prompt_tune, hc, hg, exceptIsOk, PTEvent.isAwait, PyPath.toBool,
          List.countP_cons]
  · exact List.countP_eq_zero.mpr (fun ev _ => by simp [QEvent.isAwait])
  · exact List.countP_eq_zero.mpr (fun ev _ => by simp [QEvent.isAwait])

/-- C7: `global_search` is a single-pass sequence: it derives the reports from
the community-reports and nodes DataFrames at the given level, derives the
entities from the nodes and entities DataFrames at the same level, builds one
global search engine from the config, reports, entities and response type,
performs exactly one search call on it and returns that call's response —
the full ordered trace and the returned value are as listed. -/
theorem global_search_single_pass {Err C DF Entity Reports TextUnits
    Relationships Covariate Engine FStore Ctx : Type}
    (env : QueryEnv Err C DF Entity Reports TextUnits Relationships Covariate
      Engine FStore Ctx)
    (config : GraphRagConfig C)
    (final_nodes final_entities final_community_reports : DF)
    (community_level : Int) (response_type query : String)
    (reports : Reports) (ents : List Entity) (engine : Engine)
    (res : SearchResult Ctx)
    (hr : env.read_indexer_reports final_community_reports final_nodes
      community_level = .ok reports)
    (he : env.read_indexer_entities final_nodes final_entities
      community_level = .ok ents)
    (hg : env.get_global_search_engine config reports ents response_type =
      .ok engine)
    (hs : env.engine_search engine query = .ok res) :
    global_search env config final_nodes final_entities
      final_community_reports community_level response_type query =
    ([QEvent.readReports final_community_reports final_nodes community_level,
      QEvent.readEntities final_nodes final_entities community_level,
      QEvent.getGlobalEngine, QEvent.engineSearch query,
      QEvent.reporterSuccess], .ok res.response) := by
  simp [global_search, hr, he, hg, hs]

/-- Witness for C7 at a concrete environment and arguments. -/
theorem global_search_single_pass_witness :
    global_search envOkQ cfg0 0 1 2 2 "rt" "q" =
    ([QEvent.readReports 2 0 2, QEvent.readEntities 0 1 2,
      QEvent.getGlobalEngine, QEvent.engineSearch "q",
      QEvent.reporterSuccess], .ok (Response.str "ok")) :=
  global_search_single_pass envOkQ cfg0 0 1 2 2 "rt" "q" () [] ()
    ⟨Response.str "ok", ()⟩ rfl rfl rfl rfl

/-- C9: whenever `config_args` does not make `"overwrite"` truthy (a missing
key, `None` and the empty dict included), `__get_embedding_description_store`
returns a LanceDB store opened on the configured collection name and the
configured `db_uri` (default `"./lancedb"`), for an arbitrary
`vector_store_type`: the factory-built store of the requested type is
constructed and connected (first two trace events) and then discarded. -/
theorem embedding_store_defaults_to_lancedb {Err C DF Entity Reports TextUnits
    Relationships Covariate Engine FStore Ctx : Type}
    (env : QueryEnv Err C DF Entity Reports TextUnits Relationships Covariate
      Engine FStore Ctx)
    (entities : List Entity) (vector_store_type : PyVal)
    (config_args0 : Option Dict) (fs : FStore)
    (hov : (dictGet (edsFinalArgs config_args0) "overwrite"
      (PyVal.bool false)).isTruthy = false)
    (hf : env.factory_get_vector_store vector_store_type
      (edsFinalArgs config_args0) = .ok fs)
    (hfc : env.factory_store_connect fs (edsFinalArgs config_args0) = .ok ())
    (hl : env.lancedb_connect (edsDbUri config_args0) = .ok ())
    (ho : env.lancedb_open_table (edsDbUri config_args0)
      (edsCollectionName config_args0) = .ok ()) :
    get_embedding_description_store env entities vector_store_type
      config_args0 =
    ([QEvent.factoryGetStore vector_store_type (edsFinalArgs config_args0),
      QEvent.factoryStoreConnect (edsFinalArgs config_args0),
      QEvent.lancedbConnect (edsDbUri config_args0),
      QEvent.lancedbOpenTable (edsCollectionName config_args0)],
     edsFinalArgs config_args0,
     .ok (Store.lancedb (edsCollectionName config_args0)
       (edsDbUri config_args0))) := by
  simp [get_embedding_description_store, hf, hfc, hov, hl, ho]

/-- Witness for C9: with no `config_args` and a non-LanceDB requested type,
the returned store is still the LanceDB store on the default collection name
and `"./lancedb"`. -/
theorem embedding_store_defaults_to_lancedb_witness :
    get_embedding_description_store envOkQ [] (PyVal.str "azure_ai_search")
      none =
    ([QEvent.factoryGetStore (PyVal.str "azure_ai_search")
        (edsFinalArgs none),
      QEvent.factoryStoreConnect (edsFinalArgs none),
      QEvent.lancedbConnect (edsDbUri none),
      QEvent.lancedbOpenTable (edsCollectionName none)],
     edsFinalArgs none,
     .ok (Store.lancedb (edsCollectionName none) (edsDbUri none))) :=
  embedding_store_defaults_to_lancedb envOkQ [] (PyVal.str "azure_ai_search")
    none () rfl rfl rfl rfl rfl

/-- C2: when `global_search` and `local_search` return normally, each returns
exactly the `response` field of the result of the delegated engine's
`search(query)` call, unmodified; and that value is a string, a single
structured record, or a sequence of structured records. -/
theorem search_returns_engine_response {Err C DF Entity Reports TextUnits
    Relationships Covariate Engine FStore Ctx : Type}
    (env : QueryEnv Err C DF Entity Reports TextUnits Relationships Covariate
      Engine FStore Ctx)
    (config : GraphRagConfig C)
    (final_nodes final_entities final_community_reports final_text_units
      final_relationships : DF)
    (final_covariates : Option DF) (community_level : Int)
    (response_type query : String)
    (reportsv : Reports) (ents : List Entity) (tus : TextUnits)
    (rels : Relationships) (covs : List Covariate) (engine : Engine)
    (fs : FStore) (res : SearchResult Ctx)
    (h1 : ∀ a b l, env.read_indexer_reports a b l = .ok reportsv)
    (h2 : ∀ a b l, env.read_indexer_entities a b l = .ok ents)
    (h3 : ∀ a, env.read_indexer_text_units a = .ok tus)
    (h4 : ∀ a, env.read_indexer_relationships a = .ok rels)
    (h5 : ∀ a, env.read_indexer_covariates a = .ok covs)
    (h6 : ∀ c r e t, env.get_global_search_engine c r e t = .ok engine)
    (h7 : ∀ c r t e rl cv st t2,
      env.get_local_search_engine c r t e rl cv st t2 = .ok engine)
    (h8 : ∀ g qq, env.engine_search g qq = .ok res)
    (h9 : ∀ v d, env.factory_get_vector_store v d = .ok fs)
    (h10 : ∀ s d, env.factory_store_connect s d = .ok ())
    (h11 : ∀ es s, env.store_entity_semantic_embeddings es s = .ok ())
    (h12 : ∀ u, env.lancedb_connect u = .ok ())
    (h13 : ∀ u c, env.lancedb_open_table u c = .ok ()) :
    (global_search env config final_nodes final_entities
      final_community_reports community_level response_type query).2 =
      .ok res.response ∧
    (local_search env config final_nodes final_entities
      final_community_reports final_text_units final_relationships
      final_covariates community_level response_type query).2.2 =
      .ok res.response ∧
    ((∃ s, res.response = Response.str s) ∨
     (∃ d, res.response = Response.record d) ∨
     (∃ ds, res.response = Response.records ds)) := by
  refine ⟨?_, ?_, ?_⟩
  · simp [global_search, h1, h2, h6, h8]
  · cases hov : (dictGet (edsFinalArgs (some (localVectorStoreArgs config)))
        "overwrite" (PyVal.bool false)).isTruthy <;>
      cases final_covariates <;>
      simp [local_search, get_embedding_description_store, hov, h2, h9, h10,
        h11, h12, h13, h5, h1, h3, h4, h7, h8]
  · rcases res with ⟨resp, ctx⟩
    cases resp with
    | str s => exact Or.inl ⟨s, rfl⟩
    | record d => exact Or.inr (Or.inl ⟨d, rfl⟩)
    | records ds => exact Or.inr (Or.inr ⟨ds, rfl⟩)

/-- Witness for C2 at a concrete environment and arguments. -/
theorem search_returns_engine_response_witness :
    (global_search envOkQ cfg0 0 1 2 2 "rt" "q").2 =
      .ok (Response.str "ok") ∧
    (local_search envOkQ cfg0 0 1 2 3 4 (some 9) 2 "rt" "q").2.2 =
      .ok (Response.str "ok") ∧
    ((∃ s, Response.str "ok" = Response.str s) ∨
     (∃ d, Response.str "ok" = Response.record d) ∨
     (∃ ds, Response.str "ok" = Response.records ds)) :=
  search_returns_engine_response envOkQ cfg0 0 1 2 3 4 (some 9) 2 "rt" "q"
    () [] () () [1, 2] () () ⟨Response.str "ok", ()⟩
    (fun _ _ _ => rfl) (fun _ _ _ => rfl) (fun _ => rfl) (fun _ => rfl)
    (fun _ => rfl) (fun _ _ _ _ => rfl) (fun _ _ _ _ _ _ _ _ => rfl)
    (fun _ _ => rfl) (fun _ _ => rfl) (fun _ _ => rfl) (fun _ _ => rfl)
    (fun _ => rfl) (fun _ _ => rfl)

/-- C6: the covariates input of `local_search` is optional: with
`final_covariates = None`, `read_indexer_covariates` is never invoked and the
engine is built with the mapping whose `"claims"` list is empty; with a
non-`None` DataFrame, the engine is built with the `"claims"` list returned
by `read_indexer_covariates` on it, which is invoked exactly once. -/
theorem local_search_covariates_optional {Err C DF Entity Reports TextUnits
    Relationships Covariate Engine FStore Ctx : Type}
    (env : QueryEnv Err C DF Entity Reports TextUnits Relationships Covariate
      Engine FStore Ctx)
    (config : GraphRagConfig C)
    (final_nodes final_entities final_community_reports final_text_units
      final_relationships : DF) (community_level : Int)
    (response_type query : String)
    (ents : List Entity) (reportsv : Reports) (tus : TextUnits)
    (rels : Relationships) (fs : FStore)
    (he : ∀ a b l, env.read_indexer_entities a b l = .ok ents)
    (hr : ∀ a b l, env.read_indexer_reports a b l = .ok reportsv)
    (ht : ∀ a, env.read_indexer_text_units a = .ok tus)
    (hrel : ∀ a, env.read_indexer_relationships a = .ok rels)
    (h9 : ∀ v d, env.factory_get_vector_store v d = .ok fs)
    (h10 : ∀ s d, env.factory_store_connect s d = .ok ())
    (h11 : ∀ es s, env.store_entity_semantic_embeddings es s = .ok ())
    (h12 : ∀ u, env.lancedb_connect u = .ok ())
    (h13 : ∀ u c, env.lancedb_open_table u c = .ok ()) :
    (∀ engine res,
      (∀ c r t rl st, env.get_local_search_engine c r t ents rl ⟨[]⟩ st
        response_type = .ok engine) →
      (∀ g, env.engine_search g query = .ok res) →
      (local_search env config final_nodes final_entities
        final_community_reports final_text_units final_relationships none
        community_level response_type query).2.2 = .ok res.response ∧
      List.countP (fun ev => QEvent.isReadCovariates ev)
        (local_search env config final_nodes final_entities
          final_community_reports final_text_units final_relationships none
          community_level response_type query).1 = 0) ∧
    (∀ df covs engine res,
      env.read_indexer_covariates df = .ok covs →
      (∀ c r t rl st, env.get_local_search_engine c r t ents rl ⟨covs⟩ st
        response_type = .ok engine) →
      (∀ g, env.engine_search g query = .ok res) →
      (local_search env config final_nodes final_entities
        final_community_reports final_text_units final_relationships
        (some df) community_level response_type query).2.2 =
        .ok res.response ∧
      List.countP (fun ev => QEvent.isReadCovariates ev)
        (local_search env config final_nodes final_entities
          final_community_reports final_text_units final_relationships
          (some df) community_level response_type query).1 = 1) := by
  constructor
  · intro engine res hge hs
    cases hov : (dictGet (edsFinalArgs (some (localVectorStoreArgs config)))
        "overwrite" (PyVal.bool false)).isTruthy <;>
      constructor <;>
      simp [local_search, get_embedding_description_store, hov, he, h9, h10,
        h11, h12, h13, hr, ht, hrel, hge, hs, QEvent.isReadCovariates,
        List.countP_append, List.countP_cons]
  · intro df covs engine res hcov hge hs
    cases hov : (dictGet (edsFinalArgs (some (localVectorStoreArgs config)))
        "overwrite" (PyVal.bool false)).isTruthy <;>
      constructor <;>
      simp [local_search, get_embedding_description_store, hov, he, h9, h10,
        h11, h12, h13, hr, ht, hrel, hcov, hge, hs, QEvent.isReadCovariates,
        List.countP_append, List.countP_cons]

/-- Witness for C6 at a concrete environment, in the `None` covariates case. -/
theorem local_search_covariates_optional_witness :
    (local_search envOkQ cfg0 0 1 2 3 4 none 2 "rt" "q").2.2 =
      .ok (Response.str "ok") ∧
    List.countP (fun ev => QEvent.isReadCovariates ev)
      (local_search envOkQ cfg0 0 1 2 3 4 none 2 "rt" "q").1 = 0 :=
  (local_search_covariates_optional envOkQ cfg0 0 1 2 3 4 2 "rt" "q"
    [] () () () () (fun _ _ _ => rfl) (fun _ _ _ => rfl) (fun _ => rfl)
    (fun _ => rfl) (fun _ _ => rfl) (fun _ _ => rfl) (fun _ _ => rfl)
    (fun _ => rfl) (fun _ _ => rfl)).1 () ⟨Response.str "ok", ()⟩
    (fun _ _ _ _ _ => rfl) (fun _ => rfl)

/-- C4: exceptions raised by delegated external components propagate
unchanged to the caller — none is caught, transformed or replaced: shown for
the config loader and the prompt-generation engine in `prompt_tune`, for an
indexer adapter and the search engine in `global_search`, and for an indexer
adapter, the vector-store factory and the search engine in `local_search`. -/
theorem delegated_errors_propagate {Err K C DF Entity Reports TextUnits
    Relationships Covariate Engine FStore Ctx : Type}
    (envPT : PromptTuneEnv Err K)
    (env : QueryEnv Err C DF Entity Reports TextUnits Relationships Covariate
      Engine FStore Ctx)
    (config root domain select : String) (limit max_tokens chunk_size : Int)
    (language : Option String) (skip_entity_types : Bool) (output : String)
    (n_subset_max k min_examples_required : Int)
    (qconfig : GraphRagConfig C)
    (final_nodes final_entities final_community_reports final_text_units
      final_relationships : DF)
    (final_covariates : Option DF) (community_level : Int)
    (response_type query : String) :
    (∀ e, envPT.read_config_parameters root config = .error e →
      (prompt_tune envPT config root domain select limit max_tokens chunk_size
        language skip_entity_types output n_subset_max k
        min_examples_required).2 = .error e) ∧
    (∀ gc e, envPT.read_config_parameters root config = .ok gc →
      envPT.generate_indexing_prompts (promptTuneArgs gc root chunk_size limit
        select domain language max_tokens skip_entity_types
        min_examples_required n_subset_max k) = .error e →
      (prompt_tune envPT config root domain select limit max_tokens chunk_size
        language skip_entity_types output n_subset_max k
        min_examples_required).2 = .error e) ∧
    (∀ e, env.read_indexer_reports final_community_reports final_nodes
        community_level = .error e →
      (global_search env qconfig final_nodes final_entities
        final_community_reports community_level response_type query).2 =
        .error e) ∧
    (∀ reports ents engine e,
      env.read_indexer_reports final_community_reports final_nodes
        community_level = .ok reports →
      env.read_indexer_entities final_nodes final_entities community_level =
        .ok ents →
      env.get_global_search_engine qconfig reports ents response_type =
        .ok engine →
      env.engine_search engine query = .error e →
      (global_search env qconfig final_nodes final_entities
        final_community_reports community_level response_type query).2 =
        .error e) ∧
    (∀ e, env.read_indexer_entities final_nodes final_entities
        community_level = .error e →
      (local_search env qconfig final_nodes final_entities
        final_community_reports final_text_units final_relationships
        final_covariates community_level response_type query).2.2 =
        .error e) ∧
    (∀ ents e, env.read_indexer_entities final_nodes final_entities
        community_level = .ok ents →
      (∀ v d, env.factory_get_vector_store v d = .error e) →
      (local_search env qconfig final_nodes final_entities
        final_community_reports final_text_units final_relationships
        final_covariates community_level response_type query).2.2 =
        .error e) ∧
    (∀ ents reportsv tus rels covs fs engine e,
      (∀ a b l, env.read_indexer_entities a b l = .ok ents) →
      (∀ v d, env.factory_get_vector_store v d = .ok fs) →
      (∀ s d, env.factory_store_connect s d = .ok ()) →
      (∀ es s, env.store_entity_semantic_embeddings es s = .ok ()) →
      (∀ u, env.lancedb_connect u = .ok ()) →
      (∀ u c, env.lancedb_open_table u c = .ok ()) →
      (∀ a, env.read_indexer_covariates a = .ok covs) →
      (∀ a b l, env.read_indexer_reports a b l = .ok reportsv) →
      (∀ a, env.read_indexer_text_units a = .ok tus) →
      (∀ a, env.read_indexer_relationships a = .ok rels) →
      (∀ c r t e2 rl cv st t2,
        env.get_local_search_engine c r t e2 rl cv st t2 = .ok engine) →
      (∀ g, env.engine_search g query = .error e) →
      (local_search env qconfig final_nodes final_entities
        final_community_reports final_text_units final_relationships
        final_covariates community_level response_type query).2.2 =
        .error e) := by
  refine ⟨?_, ?_, ?_, ?_, ?_, ?_, ?_⟩
  · intro e hc
    simp [prompt_tune, hc]
  · intro gc e hc hg
    simp [prompt_tune, hc, hg]
  · intro e hr
    simp [global_search, hr]
  · intro reports ents engine e hr he hg hs
    simp [global_search, hr, he, hg, hs]
  · intro e he
    simp [local_search, he]
  · intro ents e he hf
    simp [local_search, get_embedding_description_store, he, hf]
  · intro ents reportsv tus rels covs fs engine e he hf hfc hse hl ho hcov hr
      ht hrel hge hs
    cases hov : (dictGet (edsFinalArgs (some (localVectorStoreArgs qconfig)))
        "overwrite" (PyVal.bool false)).isTruthy <;>
      cases final_covariates <;>
      simp [local_search, get_embedding_description_store, hov, he, hf, hfc,
        hse, hl, ho, hcov, hr, ht, hrel, hge, hs]

/-- Witness for C4: with a search engine raising `42`, `global_search`
propagates `42` to the caller. -/
theorem delegated_errors_propagate_witness :
    (global_search envBadSearchQ cfg0 0 1 2 2 "rt" "q").2 = .error 42 :=
  (delegated_errors_propagate envOkPT envBadSearchQ "c" "r" "d" "random" 15
    100 200 none false "prompts" 300 15 2 cfg0 0 1 2 3 4 none 2 "rt"
    "q").2.2.2.1 () [] () 42 rfl rfl rfl rfl

/-- C3 counterexample: the claim that `local_search` leaves the config object
unchanged fails at a concrete input: with
`config.embeddings.vector_store = {"type": "lancedb"}` (a non-empty dict) and
all delegated calls succeeding, the dict held by the returned config has
gained a `"collection_name"` key, so the config is not the one passed in. -/
theorem local_search_mutates_config_counterexample :
    (local_search envOkQ cfg0 0 1 2 3 4 none 2 "rt" "q").2.1 ≠ cfg0 := by
  decide

/-- C3 amended: `prompt_tune` and `global_search` pass their inputs through,
and `local_search` leaves its DataFrame inputs untouched; but `local_search`
does mutate the config when `config.embeddings.vector_store` is a non-empty
dict: that dict's `"collection_name"` key is set in place (to the value of
`"query_collection_name"`, default `"entity_description_embeddings"`) by
`__get_embedding_description_store`.  When `vector_store` is `None` or empty
the config is unchanged. -/
theorem local_search_config_mutation_characterized {Err C DF Entity Reports
    TextUnits Relationships Covariate Engine FStore Ctx : Type}
    (env : QueryEnv Err C DF Entity Reports TextUnits Relationships Covariate
      Engine FStore Ctx)
    (config : GraphRagConfig C)
    (final_nodes final_entities final_community_reports final_text_units
      final_relationships : DF)
    (final_covariates : Option DF) (community_level : Int)
    (response_type query : String) :
    (config.vector_store = none →
      (local_search env config final_nodes final_entities
        final_community_reports final_text_units final_relationships
        final_covariates community_level response_type query).2.1 = config) ∧
    (∀ d, config.vector_store = some d → dictBool d = false →
      (local_search env config final_nodes final_entities
        final_community_reports final_text_units final_relationships
        final_covariates community_level response_type query).2.1 = config) ∧
    (∀ d ents, config.vector_store = some d → dictBool d = true →
      env.read_indexer_entities final_nodes final_entities community_level =
        .ok ents →
      (local_search env config final_nodes final_entities
        final_community_reports final_text_units final_relationships
        final_covariates community_level response_type query).2.1 =
      ⟨some (edsFinalArgs (some d)), config.rest⟩) := by
  refine ⟨?_, ?_, ?_⟩
  · intro h
    rcases he : env.read_indexer_entities final_nodes final_entities
        community_level with e | ents <;>
      simp [local_search, he, localAliased, h]
  · intro d hd hb
    rcases he : env.read_indexer_entities final_nodes final_entities
        community_level with e | ents <;>
      simp [local_search, he, localAliased, hd, hb]
  · intro d ents hd hb hent
    simp [local_search, hent, localAliased, localVectorStoreArgs, hd, hb,
      eds_store_args_eq]

/-- Witness for the amended C3: at the concrete run of the counterexample,
the returned config's dict is the input dict with `"collection_name"`
appended. -/
theorem local_search_config_mutation_characterized_witness :
    (local_search envOkQ cfg0 0 1 2 3 4 none 2 "rt" "q").2.1 =
    ⟨some [("type", PyVal.str "lancedb"),
           ("collection_name", PyVal.str "entity_description_embeddings")],
     ()⟩ := by
  have h := (local_search_config_mutation_characterized envOkQ cfg0 0 1 2 3 4
    none 2 "rt" "q").2.2 [("type", PyVal.str "lancedb")] [] rfl rfl rfl
  simpa [edsFinalArgs, edsCollectionName, normalizeConfigArgs, dictSet,
    dictGet, dictBool, dictHasKey, cfg0] using h

end Graphrag
